import Mathlib

/-!
Verification of the core logic of `src/app.py` (a Streamlit questionnaire
tool): the nearest-match selector `find_matching_simulation_item`, the
graph-diff classification inside `display_demoviz_graph`, and the score
aggregation inside `community_network_assessment`.

Numeric values that the Python code manipulates as floats (scores,
distances) are modelled exactly over the rationals `ℚ`.
-/

/-- The optional `scores` sub-dictionary of a simulation item:
each of the three fields may be missing (`item.get("scores", {}).get(..., -1000.0)`). -/
structure SimScores where
  centrality : Option ℚ
  connectivity : Option ℚ
  clustering : Option ℚ
deriving DecidableEq

/-- A simulation item, as far as `find_matching_simulation_item` inspects it:
a dictionary that may or may not carry a `scores` sub-dictionary. -/
structure SimItem where
  scores : Option SimScores
deriving DecidableEq

/-- Lines 78-79 of app.py: `item.get("scores", {}).get("centrality", -1000.0)`. -/
def itemCentrality (it : SimItem) : ℚ :=
  ((it.scores.getD ⟨none, none, none⟩).centrality).getD (-1000)

/-- Line 80 of app.py: `item.get("scores", {}).get("connectivity", -1000.0)`. -/
def itemConnectivity (it : SimItem) : ℚ :=
  ((it.scores.getD ⟨none, none, none⟩).connectivity).getD (-1000)

/-- Line 81 of app.py: `item.get("scores", {}).get("clustering", -1000.0)`. -/
def itemClustering (it : SimItem) : ℚ :=
  ((it.scores.getD ⟨none, none, none⟩).clustering).getD (-1000)

/-- Lines 83-87 of app.py: the squared Euclidean distance of an item's
score triple to the query triple, sentinel defaults included. -/
def distSq (it : SimItem) (centrality connectivity clustering : ℚ) : ℚ :=
  (itemCentrality it - centrality) ^ 2 +
  (itemConnectivity it - connectivity) ^ 2 +
  (itemClustering it - clustering) ^ 2

/-- One iteration of the loop at lines 77-91 of app.py. The accumulator is
`(best_match, min_dist_sq)`; `min_dist_sq = none` models the initial
`float('inf')`, against which any finite distance compares as smaller. -/
def stepFind (centrality connectivity clustering : ℚ)
    (acc : Option SimItem × Option ℚ) (item : SimItem) : Option SimItem × Option ℚ :=
  match acc.2 with
  | none => (some item, some (distSq item centrality connectivity clustering))
  | some m =>
    if distSq item centrality connectivity clustering < m then
      (some item, some (distSq item centrality connectivity clustering))
    else acc

/-- Lines 67-93 of app.py: return the simulation item whose score triple is
closest (minimum squared Euclidean distance) to the query; `none` on an
empty list. -/
def find_matching_simulation_item (simulation_items_list : List SimItem)
    (centrality connectivity clustering : ℚ) : Option SimItem :=
  if simulation_items_list.isEmpty then none
  else (simulation_items_list.foldl (stepFind centrality connectivity clustering)
          (none, none)).1

/-- Invariant of the selector's loop, starting from a current best `b`
whose recorded minimum is its own distance: the loop returns some item `r`,
records `r`'s distance as the minimum, and either keeps `b` (when nothing
beats it strictly) or picks the first strict improver chain's last winner
`r`, with every item before `r`'s position strictly farther than `r` and
every item after it no closer. -/
lemma findLoop_invariant (c n l : ℚ) :
    ∀ (items : List SimItem) (b : SimItem),
      ∃ r, List.foldl (stepFind c n l) (some b, some (distSq b c n l)) items
            = (some r, some (distSq r c n l)) ∧
        ((r = b ∧ ∀ x ∈ items, distSq b c n l ≤ distSq x c n l) ∨
         (∃ pre post, items = pre ++ r :: post ∧
            distSq r c n l < distSq b c n l ∧
            (∀ x ∈ pre, distSq r c n l < distSq x c n l) ∧
            (∀ x ∈ post, distSq r c n l ≤ distSq x c n l))) := by
  intro items
  induction items with
  | nil =>
    intro b
    exact ⟨b, rfl, Or.inl ⟨rfl, by simp⟩⟩
  | cons x xs ih =>
    intro b
    by_cases hlt : distSq x c n l < distSq b c n l
    · obtain ⟨r, hfold, hcase⟩ := ih x
      refine ⟨r, ?_, ?_⟩
      · rw [List.foldl_cons]
        rw [show stepFind c n l (some b, some (distSq b c n l)) x
              = (some x, some (distSq x c n l)) by simp [stepFind, hlt]]
        exact hfold
      · rcases hcase with ⟨hrb, hall⟩ | ⟨pre, post, hsplit, hstrict, hpre, hpost⟩
        · subst hrb
          exact Or.inr ⟨[], xs, rfl, hlt, by simp, hall⟩
        · refine Or.inr ⟨x :: pre, post, by rw [hsplit]; rfl, lt_trans hstrict hlt, ?_, hpost⟩
          intro y hy
          rcases List.mem_cons.mp hy with hy | hy
          · subst hy; exact hstrict
          · exact hpre y hy
    · obtain ⟨r, hfold, hcase⟩ := ih b
      refine ⟨r, ?_, ?_⟩
      · rw [List.foldl_cons]
        rw [show stepFind c n l (some b, some (distSq b c n l)) x
              = (some b, some (distSq b c n l)) by simp [stepFind, hlt]]
        exact hfold
      · rcases hcase with ⟨hrb, hall⟩ | ⟨pre, post, hsplit, hstrict, hpre, hpost⟩
        · refine Or.inl ⟨hrb, ?_⟩
          intro y hy
          rcases List.mem_cons.mp hy with hy | hy
          · subst hy; exact le_of_not_lt hlt
          · exact hall y hy
        · refine Or.inr ⟨x :: pre, post, by rw [hsplit]; rfl, hstrict, ?_, hpost⟩
          intro y hy
          rcases List.mem_cons.mp hy with hy | hy
          · subst hy; exact lt_of_lt_of_le hstrict (le_of_not_lt hlt)
          · exact hpre y hy

/-- Structural specification of `find_matching_simulation_item` on a
non-empty list: it returns some item `r`, occurring in the list, with every
item strictly before `r`'s occurrence strictly farther from the query and
every item after it at least as far. -/
lemma find_spec (items : List SimItem) (c n l : ℚ) (hne : items ≠ []) :
    ∃ r pre post, find_matching_simulation_item items c n l = some r ∧
      items = pre ++ r :: post ∧
      (∀ x ∈ pre, distSq r c n l < distSq x c n l) ∧
      (∀ x ∈ post, distSq r c n l ≤ distSq x c n l) := by
  match items with
  | [] => exact absurd rfl hne
  | x :: xs =>
    obtain ⟨r, hfold, hcase⟩ := findLoop_invariant c n l xs x
    have hfind : find_matching_simulation_item (x :: xs) c n l = some r := by
      unfold find_matching_simulation_item
      rw [if_neg (by simp)]
      rw [List.foldl_cons]
      rw [show stepFind c n l (none, none) x = (some x, some (distSq x c n l)) by
        simp [stepFind]]
      rw [hfold]
    rcases hcase with ⟨hrb, hall⟩ | ⟨pre, post, hsplit, hstrict, hpre, hpost⟩
    · subst hrb
      exact ⟨r, [], xs, hfind, rfl, by simp, hall⟩
    · refine ⟨r, x :: pre, post, hfind, by rw [hsplit]; rfl, ?_, hpost⟩
      intro y hy
      rcases List.mem_cons.mp hy with hy | hy
      · subst hy; exact hstrict
      · exact hpre y hy

/-- Minimality of the selector's output over the whole input list. -/
lemma find_min (items : List SimItem) (c n l : ℚ) (r : SimItem)
    (h : find_matching_simulation_item items c n l = some r) :
    ∀ x ∈ items, distSq r c n l ≤ distSq x c n l := by
  have hne : items ≠ [] := by
    intro he
    subst he
    simp [find_matching_simulation_item] at h
  obtain ⟨r', pre, post, hfind, hsplit, hpre, hpost⟩ := find_spec items c n l hne
  rw [h] at hfind
  injection hfind with hr
  subst hr
  intro x hx
  rw [hsplit] at hx
  rcases List.mem_append.mp hx with hx | hx
  · exact le_of_lt (hpre x hx)
  · rcases List.mem_cons.mp hx with hx | hx
    · subst hx; exact le_rfl
    · exact hpost x hx

/-- Claim C4: on the empty candidate list `find_matching_simulation_item`
returns `none` (the "no match" value) for every query triple; being a total
Lean function, it raises no exception. -/
theorem claim_C4 (centrality connectivity clustering : ℚ) :
    find_matching_simulation_item [] centrality connectivity clustering = none := rfl

/-- A fully scored demo item with all three scores equal to 1. -/
def demoItemOnes : SimItem := ⟨some ⟨some 1, some 1, some 1⟩⟩

/-- A fully scored demo item with all three scores equal to 5. -/
def demoItemFives : SimItem := ⟨some ⟨some 5, some 5, some 5⟩⟩

/-- A demo item whose centrality score is missing (sentinel applies). -/
def demoItemNoCent : SimItem := ⟨some ⟨none, some 3, some 3⟩⟩

/-- A fully scored demo item with all three scores equal to 2. -/
def demoItemTwos : SimItem := ⟨some ⟨some 2, some 2, some 2⟩⟩

/-- Claim C1: on every non-empty candidate list, the item returned by
`find_matching_simulation_item` has squared Euclidean distance (over
centrality, connectivity, clustering, sentinel defaults included) to the
query that is less than or equal to the distance of every item in the
list. -/
theorem claim_C1 (items : List SimItem) (c n l : ℚ) (hne : items ≠ []) :
    ∃ r, find_matching_simulation_item items c n l = some r ∧
      ∀ x ∈ items, distSq r c n l ≤ distSq x c n l := by
  obtain ⟨r, pre, post, hfind, hsplit, hpre, hpost⟩ := find_spec items c n l hne
  exact ⟨r, hfind, find_min items c n l r hfind⟩

/-- Witness for claim C1 at a concrete two-item list and query (3,3,3). -/
theorem claim_C1_witness :
    ([demoItemOnes, demoItemFives] : List SimItem) ≠ [] ∧
    ∃ r, find_matching_simulation_item [demoItemOnes, demoItemFives] 3 3 3 = some r ∧
      ∀ x ∈ [demoItemOnes, demoItemFives], distSq r 3 3 3 ≤ distSq x 3 3 3 :=
  ⟨by simp, claim_C1 [demoItemOnes, demoItemFives] 3 3 3 (by simp)⟩

/-- Claim C5: whatever item `find_matching_simulation_item` returns splits
the input list so that every candidate strictly before it has strictly
greater squared distance and every candidate after it has greater-or-equal
squared distance: on ties the first item in input order wins, because the
strict less-than comparison never replaces an earlier equal-distance
match. -/
theorem claim_C5 (items : List SimItem) (c n l : ℚ) (r : SimItem)
    (h : find_matching_simulation_item items c n l = some r) :
    ∃ pre post, items = pre ++ r :: post ∧
      (∀ x ∈ pre, distSq r c n l < distSq x c n l) ∧
      (∀ x ∈ post, distSq r c n l ≤ distSq x c n l) := by
  have hne : items ≠ [] := by
    intro he
    subst he
    simp [find_matching_simulation_item] at h
  obtain ⟨r', pre, post, hfind, hsplit, hpre, hpost⟩ := find_spec items c n l hne
  rw [h] at hfind
  injection hfind with hr
  subst hr
  exact ⟨pre, post, hsplit, hpre, hpost⟩

/-- Witness for claim C5: the spec's tie scenario, candidates with scores
(1,1,1) and (5,5,5), query (3,3,3), both at squared distance 12; the first
item is returned. -/
theorem claim_C5_witness :
    find_matching_simulation_item [demoItemOnes, demoItemFives] 3 3 3 = some demoItemOnes ∧
    ∃ pre post, ([demoItemOnes, demoItemFives] : List SimItem) = pre ++ demoItemOnes :: post ∧
      (∀ x ∈ pre, distSq demoItemOnes 3 3 3 < distSq x 3 3 3) ∧
      (∀ x ∈ post, distSq demoItemOnes 3 3 3 ≤ distSq x 3 3 3) := by
  have h : find_matching_simulation_item [demoItemOnes, demoItemFives] 3 3 3
      = some demoItemOnes := by
    norm_num [find_matching_simulation_item, stepFind, distSq, itemCentrality,
      itemConnectivity, itemClustering, demoItemOnes, demoItemFives]
  exact ⟨h, claim_C5 [demoItemOnes, demoItemFives] 3 3 3 demoItemOnes h⟩

/-- Both factors of `16 - (a - q)^2 = (4 - (a - q)) * (4 + (a - q))` are
nonnegative when `a` and `q` both lie in `[1, 5]`. -/
lemma sq_diff_le_sixteen (a q : ℚ) (ha1 : 1 ≤ a) (ha2 : a ≤ 5)
    (hq1 : 1 ≤ q) (hq2 : q ≤ 5) : (a - q) ^ 2 ≤ 16 := by
  nlinarith

/-- A missing score field contributes at least `1001^2` to the squared
distance when the corresponding query component lies in `[1, 5]`. -/
lemma sentinel_component_far (q : ℚ) (hq1 : 1 ≤ q) :
    (1002001 : ℚ) ≤ (-1000 - q) ^ 2 := by
  nlinarith

/-- Claim C6: when the query triple lies in `[1,5]^3` and the list contains
at least one item with all three score fields present and in `[1,5]`, the
selected item has all three score fields present: missing fields take the
`-1000` sentinel and lose to any fully scored candidate. -/
theorem claim_C6 (items : List SimItem) (c n l : ℚ) (it r : SimItem)
    (hc1 : 1 ≤ c) (hc2 : c ≤ 5) (hn1 : 1 ≤ n) (hn2 : n ≤ 5)
    (hl1 : 1 ≤ l) (hl2 : l ≤ 5)
    (hmem : it ∈ items)
    (hfull : ∃ s, it.scores = some s ∧
       (∃ a, s.centrality = some a ∧ 1 ≤ a ∧ a ≤ 5) ∧
       (∃ b, s.connectivity = some b ∧ 1 ≤ b ∧ b ≤ 5) ∧
       (∃ d, s.clustering = some d ∧ 1 ≤ d ∧ d ≤ 5))
    (hr : find_matching_simulation_item items c n l = some r) :
    ∃ s, r.scores = some s ∧
      s.centrality.isSome ∧ s.connectivity.isSome ∧ s.clustering.isSome := by
  have hle : distSq r c n l ≤ distSq it c n l := find_min items c n l r hr it hmem
  have hit : distSq it c n l ≤ 48 := by
    obtain ⟨s, hs, ⟨a, ha, ha1, ha2⟩, ⟨b, hb, hb1, hb2⟩, ⟨d, hd, hd1, hd2⟩⟩ := hfull
    have e1 : itemCentrality it = a := by simp [itemCentrality, hs, ha]
    have e2 : itemConnectivity it = b := by simp [itemConnectivity, hs, hb]
    have e3 : itemClustering it = d := by simp [itemClustering, hs, hd]
    unfold distSq
    rw [e1, e2, e3]
    have b1 := sq_diff_le_sixteen a c ha1 ha2 hc1 hc2
    have b2 := sq_diff_le_sixteen b n hb1 hb2 hn1 hn2
    have b3 := sq_diff_le_sixteen d l hd1 hd2 hl1 hl2
    linarith
  have h48 : distSq r c n l ≤ 48 := le_trans hle hit
  rcases hsr : r.scores with _ | s
  · exfalso
    have e1 : itemCentrality r = -1000 := by simp [itemCentrality, hsr]
    have hbig : (1002001 : ℚ) ≤ distSq r c n l := by
      unfold distSq
      rw [e1]
      have hfar := sentinel_component_far c hc1
      nlinarith [sq_nonneg (itemConnectivity r - n), sq_nonneg (itemClustering r - l)]
    linarith
  · refine ⟨s, rfl, ?_, ?_, ?_⟩
    · rcases hcen : s.centrality with _ | a
      · exfalso
        have e1 : itemCentrality r = -1000 := by simp [itemCentrality, hsr, hcen]
        have hbig : (1002001 : ℚ) ≤ distSq r c n l := by
          unfold distSq
          rw [e1]
          have hfar := sentinel_component_far c hc1
          nlinarith [sq_nonneg (itemConnectivity r - n), sq_nonneg (itemClustering r - l)]
        linarith
      · rfl
    · rcases hcon : s.connectivity with _ | b
      · exfalso
        have e2 : itemConnectivity r = -1000 := by simp [itemConnectivity, hsr, hcon]
        have hbig : (1002001 : ℚ) ≤ distSq r c n l := by
          unfold distSq
          rw [e2]
          have hfar := sentinel_component_far n hn1
          nlinarith [sq_nonneg (itemCentrality r - c), sq_nonneg (itemClustering r - l)]
        linarith
      · rfl
    · rcases hclu : s.clustering with _ | d
      · exfalso
        have e3 : itemClustering r = -1000 := by simp [itemClustering, hsr, hclu]
        have hbig : (1002001 : ℚ) ≤ distSq r c n l := by
          unfold distSq
          rw [e3]
          have hfar := sentinel_component_far l hl1
          nlinarith [sq_nonneg (itemCentrality r - c), sq_nonneg (itemConnectivity r - n)]
        linarith
      · rfl

/-- Witness for claim C6: a list containing an item with a missing
centrality score and a fully scored item; the fully scored item wins. -/
theorem claim_C6_witness :
    find_matching_simulation_item [demoItemNoCent, demoItemTwos] 3 3 3 = some demoItemTwos ∧
    ∃ s, demoItemTwos.scores = some s ∧
      s.centrality.isSome ∧ s.connectivity.isSome ∧ s.clustering.isSome := by
  have h : find_matching_simulation_item [demoItemNoCent, demoItemTwos] 3 3 3
      = some demoItemTwos := by
    norm_num [find_matching_simulation_item, stepFind, distSq, itemCentrality,
      itemConnectivity, itemClustering, demoItemNoCent, demoItemTwos]
  refine ⟨h, ?_⟩
  exact claim_C6 [demoItemNoCent, demoItemTwos] 3 3 3 demoItemTwos demoItemTwos
    (by norm_num) (by norm_num) (by norm_num) (by norm_num) (by norm_num) (by norm_num)
    (by simp)
    ⟨⟨some 2, some 2, some 2⟩, rfl,
     ⟨2, rfl, by norm_num, by norm_num⟩,
     ⟨2, rfl, by norm_num, by norm_num⟩,
     ⟨2, rfl, by norm_num, by norm_num⟩⟩
    h

/-- A JSON scalar usable as a node id or edge endpoint: the data files use
strings and numbers. `str()` in Python maps both to strings. -/
inductive JId where
  | jstr (s : String)
  | jnum (n : Int)
deriving DecidableEq

/-- Python `str(v)` on an id value. -/
def strOfJId : JId → String
  | JId.jstr s => s
  | JId.jnum n => toString n

/-- A node or edge record from a demoviz graph: either not a mapping at
all, or a mapping from field names to values. -/
inductive JRec where
  | notDict
  | dict (fields : List (String × JId))
deriving DecidableEq

/-- Python `rec[k]` / `k in rec` combined: `some v` when `rec` is a
mapping containing key `k` (keys are unique in a Python dict, so the first
match is the value), `none` otherwise. -/
def getField : JRec → String → Option JId
  | JRec.notDict, _ => none
  | JRec.dict fields, k => List.lookup k fields

/-- A demoviz graph dictionary, reduced to the two keys
`display_demoviz_graph` reads: `graph_data.get("nodes", [])` and
`graph_data.get("edges", [])` (a missing key is the empty list). -/
structure GraphData where
  nodes : List JRec
  edges : List JRec
deriving DecidableEq

/-- Python `tuple(sorted((s, t)))` on a pair of strings (line 118/170 of
app.py): the unordered representation of an edge. -/
def sortedPair (s t : String) : String × String :=
  if s ≤ t then (s, t) else (t, s)

/-- Lines 109-112 of app.py: the set of `str(node["id"])` over the valid
node records of the baseline (modelled as a list queried by membership). -/
def baselineNodeIds (b : GraphData) : List String :=
  b.nodes.filterMap (fun r => (getField r "id").map strOfJId)

/-- Lines 114-118 of app.py: the set of sorted `(str(source), str(target))`
pairs over the valid edge records of the baseline. -/
def baselineEdgePairs (b : GraphData) : List (String × String) :=
  b.edges.filterMap (fun r =>
    match getField r "source", getField r "target" with
    | some s, some t => some (sortedPair (strOfJId s) (strOfJId t))
    | _, _ => none)

/-- Lines 105-118 of app.py: both sets start empty and are only filled when
`baseline_graph_data` is truthy. A present graph dictionary is modelled as
truthy (every graph the app passes here carries its `nodes`/`edges` keys);
`none` models the default `baseline_graph_data=None`. -/
def baselineNodeIdSet : Option GraphData → List String
  | none => []
  | some b => baselineNodeIds b

/-- The edge-pair set under the same truthiness convention. -/
def baselineEdgePairSet : Option GraphData → List (String × String)
  | none => []
  | some b => baselineEdgePairs b

/-- Line 130 of app.py:
`is_new_node = baseline_graph_data and node_id_str not in baseline_node_ids`. -/
def nodeIsNew (baseline : Option GraphData) (node_id_str : String) : Bool :=
  baseline.isSome && !((baselineNodeIdSet baseline).contains node_id_str)

/-- Lines 170-171 of app.py:
`is_new_edge = baseline_graph_data and current_edge_tuple_sorted not in baseline_edge_tuples`. -/
def edgeIsNew (baseline : Option GraphData) (source_str target_str : String) : Bool :=
  baseline.isSome &&
    !((baselineEdgePairSet baseline).contains (sortedPair source_str target_str))

/-- The arguments of the `streamlit_agraph.Node` constructed at line 157. -/
structure VizNode where
  id : String
  label : String
  size : ℕ
  color : String
  shape : String
deriving DecidableEq

/-- The arguments of the `streamlit_agraph.Edge` constructed at lines 210-211. -/
structure VizEdge where
  source : String
  target : String
  color : String
  width : ℚ
  dashes : Bool
deriving DecidableEq

/-- Lines 121-157 of app.py: one iteration of the node loop. Records that
are not mappings with an `id` key are skipped (with a warning, line 123);
otherwise the role-based styling table applies, falling back to LimeGreen
for new generic nodes and silver otherwise. -/
def buildNode (baseline : Option GraphData) (r : JRec) : Option VizNode :=
  match getField r "id" with
  | none => none
  | some idv =>
    let node_id_str := strOfJId idv
    let node_label := strOfJId ((getField r "label").getD (JId.jstr node_id_str))
    let node_role := (getField r "role").getD (JId.jstr "default_node")
    let is_new_node := nodeIsNew baseline node_id_str
    if node_role = JId.jstr "initial_hub" then
      some ⟨node_id_str, node_label, 20, "#FFA500", "dot"⟩
    else if node_role = JId.jstr "polycentric_hub" then
      some ⟨node_id_str, node_label, 22, "#FFD700", "dot"⟩
    else if node_role = JId.jstr "central_hub" then
      some ⟨node_id_str, node_label, 25, "#FF4500", "dot"⟩
    else if node_role = JId.jstr "emergent_hub" then
      some ⟨node_id_str, node_label, 20, "#FF8C00", "dot"⟩
    else if node_role = JId.jstr "spoke_node" then
      some ⟨node_id_str, node_label, 15, "#87CEEB", "dot"⟩
    else if is_new_node ∧ node_role = JId.jstr "default_node" then
      some ⟨node_id_str, node_label, 15, "#32CD32", "dot"⟩
    else
      some ⟨node_id_str, node_label, 15, "#C0C0C0", "dot"⟩

/-- Lines 160-211 of app.py: one iteration of the edge loop. Records that
are not mappings with both `source` and `target` keys are skipped (with a
warning, line 162); otherwise the type-based styling table applies, in the
source's elif order, falling back to blue for new generic edges. -/
def buildEdge (baseline : Option GraphData) (r : JRec) : Option VizEdge :=
  match getField r "source", getField r "target" with
  | some sv, some tv =>
    let edge_source_str := strOfJId sv
    let edge_target_str := strOfJId tv
    let edge_type := (getField r "type").getD (JId.jstr "default_link")
    let is_new_edge := edgeIsNew baseline edge_source_str edge_target_str
    if edge_type = JId.jstr "spanning_tree_link" then
      some ⟨edge_source_str, edge_target_str, "#A9A9A9", 1, false⟩
    else if edge_type = JId.jstr "clustering_link" ∨ edge_type = JId.jstr "local_cluster_link" then
      some ⟨edge_source_str, edge_target_str, "#4682B4", 2, false⟩
    else if edge_type = JId.jstr "hub_connection" ∨ edge_type = JId.jstr "spoke_connection" then
      some ⟨edge_source_str, edge_target_str, "#FF8C00", 2, false⟩
    else if edge_type = JId.jstr "hub_interlink" then
      some ⟨edge_source_str, edge_target_str, "#FF4500", 5 / 2, false⟩
    else if edge_type = JId.jstr "sync_enhancement_link" then
      some ⟨edge_source_str, edge_target_str, "#20B2AA", 1, false⟩
    else if edge_type = JId.jstr "shortcut_link" then
      some ⟨edge_source_str, edge_target_str, "#9370DB", 2, true⟩
    else if edge_type = JId.jstr "preferential_attachment_link" then
      some ⟨edge_source_str, edge_target_str, "#3CB371", 3 / 2, false⟩
    else if is_new_edge ∧ edge_type = JId.jstr "default_link" then
      some ⟨edge_source_str, edge_target_str, "#0000FF", 5 / 2, false⟩
    else if edge_type = JId.jstr "random_link" then
      some ⟨edge_source_str, edge_target_str, "#E0E0E0", 1, false⟩
    else if edge_type = JId.jstr "generic_added_link" then
      some ⟨edge_source_str, edge_target_str, "#006400", 2, false⟩
    else
      some ⟨edge_source_str, edge_target_str, "#D3D3D3", 1, false⟩
  | _, _ => none

/-- The `nodes_viz` list accumulated by the loop at lines 120-157. -/
def buildNodesViz (baseline : Option GraphData) (nodes_data : List JRec) : List VizNode :=
  nodes_data.filterMap (buildNode baseline)

/-- The `edges_viz` list accumulated by the loop at lines 159-211. -/
def buildEdgesViz (baseline : Option GraphData) (edges_data : List JRec) : List VizEdge :=
  edges_data.filterMap (buildEdge baseline)

/-- The observable outcome of `display_demoviz_graph`: an early return for
missing/invalid graph data (lines 97-100), an early return when no valid
node remains (lines 213-216), or a render of the built lists (line 234). -/
inductive RenderOutcome where
  | invalidData
  | noValidNodes
  | rendered (nodes : List VizNode) (edges : List VizEdge)
deriving DecidableEq

/-- Lines 95-234 of app.py, reduced to its data flow (warnings, unique
widget keys and the agraph/Config library calls carry no data the claims
concern). A present graph dictionary is modelled as truthy. -/
def display_demoviz_graph (graph_data : Option GraphData)
    (baseline_graph_data : Option GraphData) : RenderOutcome :=
  match graph_data with
  | none => RenderOutcome.invalidData
  | some g =>
    let nodes_viz := buildNodesViz baseline_graph_data g.nodes
    let edges_viz := buildEdgesViz baseline_graph_data g.edges
    if nodes_viz.isEmpty then RenderOutcome.noValidNodes
    else RenderOutcome.rendered nodes_viz edges_viz

/-- Python `x in someSet` for the membership lists of this embedding. -/
lemma list_contains_iff {α : Type} [BEq α] [LawfulBEq α] (l : List α) (a : α) :
    l.contains a = true ↔ a ∈ l := List.elem_iff

/-- Negated membership, at the Bool level used by the classifiers. -/
lemma not_contains_iff {α : Type} [BEq α] [LawfulBEq α] (l : List α) (a : α) :
    (!(l.contains a)) = true ↔ a ∉ l := by
  constructor
  · intro h hm
    rw [(list_contains_iff l a).mpr hm] at h
    simp at h
  · intro h
    have hc : l.contains a = false := by
      cases hc : l.contains a
      · rfl
      · exact absurd ((list_contains_iff l a).mp hc) h
    rw [hc]
    rfl

/-- `tuple(sorted((s, t)))` does not depend on the order of `s` and `t`. -/
lemma sortedPair_comm (s t : String) : sortedPair s t = sortedPair t s := by
  unfold sortedPair
  by_cases h1 : s ≤ t
  · by_cases h2 : t ≤ s
    · have he : s = t := le_antisymm h1 h2
      subst he
      rfl
    · rw [if_pos h1, if_neg h2]
  · have h2 : t ≤ s := (le_total s t).resolve_left h1
    rw [if_neg h1, if_pos h2]

/-- The node classifier against a present baseline is exactly non-membership
in the baseline's node-id set. -/
lemma nodeIsNew_iff (bb : GraphData) (nid : String) :
    nodeIsNew (some bb) nid = true ↔ nid ∉ baselineNodeIds bb := by
  unfold nodeIsNew baselineNodeIdSet
  rw [show (some bb).isSome = true from rfl, Bool.true_and]
  exact not_contains_iff _ _

/-- The edge classifier against a present baseline is exactly non-membership
of the sorted endpoint pair in the baseline's edge-pair set. -/
lemma edgeIsNew_iff (bb : GraphData) (s t : String) :
    edgeIsNew (some bb) s t = true ↔ sortedPair s t ∉ baselineEdgePairs bb := by
  unfold edgeIsNew baselineEdgePairSet
  rw [show (some bb).isSome = true from rfl, Bool.true_and]
  exact not_contains_iff _ _

/-- Claim C2: a valid target node is classified "new" iff a baseline is
present and the node's stringified id is absent from the baseline's node-id
set; with no baseline, no node is classified "new". -/
theorem claim_C2 (g : GraphData) (r : JRec) (v : JId) (b : Option GraphData)
    (hr : r ∈ g.nodes) (hv : getField r "id" = some v) :
    (nodeIsNew b (strOfJId v) = true ↔
      ∃ bb, b = some bb ∧ strOfJId v ∉ baselineNodeIds bb) := by
  cases b with
  | none => simp [nodeIsNew]
  | some bb =>
    rw [nodeIsNew_iff]
    constructor
    · intro h
      exact ⟨bb, rfl, h⟩
    · rintro ⟨bb', hb, h⟩
      injection hb with hb
      subst hb
      exact h

/-- The spec scenario's node A. -/
def nodeA : JRec := JRec.dict [("id", JId.jstr "A")]

/-- The spec scenario's node B. -/
def nodeB : JRec := JRec.dict [("id", JId.jstr "B")]

/-- The spec scenario's node C. -/
def nodeC : JRec := JRec.dict [("id", JId.jstr "C")]

/-- The spec scenario's edge (A,B). -/
def edgeAB : JRec := JRec.dict [("source", JId.jstr "A"), ("target", JId.jstr "B")]

/-- The spec scenario's edge (B,C). -/
def edgeBC : JRec := JRec.dict [("source", JId.jstr "B"), ("target", JId.jstr "C")]

/-- The spec scenario's baseline graph {nodes: [A, B], edges: [(A,B)]}. -/
def demoBaseline : GraphData := ⟨[nodeA, nodeB], [edgeAB]⟩

/-- The spec scenario's target graph {nodes: [A, B, C], edges: [(A,B), (B,C)]}. -/
def demoTarget : GraphData := ⟨[nodeA, nodeB, nodeC], [edgeAB, edgeBC]⟩

/-- Witness for claim C2 at the spec scenario: node C of the target against
baseline {A, B}. -/
theorem claim_C2_witness :
    (nodeC ∈ demoTarget.nodes ∧ getField nodeC "id" = some (JId.jstr "C")) ∧
    (nodeIsNew (some demoBaseline) (strOfJId (JId.jstr "C")) = true ↔
      ∃ bb, some demoBaseline = some bb ∧
        strOfJId (JId.jstr "C") ∉ baselineNodeIds bb) :=
  ⟨⟨by simp [demoTarget], rfl⟩,
   claim_C2 demoTarget nodeC (JId.jstr "C") (some demoBaseline) (by simp [demoTarget]) rfl⟩

/-- Claim C3: a target edge is classified "new" iff the baseline is present
and the unordered pair of its stringified endpoints is absent from the
baseline's unordered-edge-pair set; with no baseline nothing is new; the
comparison ignores direction, so a target edge whose endpoints are a
baseline edge's endpoints reversed is not new. -/
theorem claim_C3 (b : GraphData) (s t : String) :
    (edgeIsNew (some b) s t = true ↔ sortedPair s t ∉ baselineEdgePairs b) ∧
    edgeIsNew none s t = false ∧
    edgeIsNew (some b) s t = edgeIsNew (some b) t s ∧
    (∀ rb ∈ b.edges, ∀ sv tv, getField rb "source" = some sv →
       getField rb "target" = some tv → s = strOfJId tv → t = strOfJId sv →
       edgeIsNew (some b) s t = false) := by
  refine ⟨edgeIsNew_iff b s t, rfl, ?_, ?_⟩
  · unfold edgeIsNew
    rw [sortedPair_comm]
  · intro rb hmem sv tv hs ht hseq hteq
    subst hseq
    subst hteq
    have hp : sortedPair (strOfJId sv) (strOfJId tv) ∈ baselineEdgePairs b :=
      List.mem_filterMap.mpr ⟨rb, hmem, by rw [hs, ht]⟩
    have hc : (baselineEdgePairs b).contains
        (sortedPair (strOfJId tv) (strOfJId sv)) = true := by
      rw [sortedPair_comm]
      exact (list_contains_iff _ _).mpr hp
    unfold edgeIsNew baselineEdgePairSet
    rw [hc]
    rfl

/-- Witness for claim C3 at the spec scenario's baseline, for the reversed
endpoint strings of its edge (A,B). -/
theorem claim_C3_witness :
    (edgeIsNew (some demoBaseline) "B" "A" = true ↔
      sortedPair "B" "A" ∉ baselineEdgePairs demoBaseline) ∧
    edgeIsNew none "B" "A" = false ∧
    edgeIsNew (some demoBaseline) "B" "A" = edgeIsNew (some demoBaseline) "A" "B" ∧
    (∀ rb ∈ demoBaseline.edges, ∀ sv tv, getField rb "source" = some sv →
       getField rb "target" = some tv → "B" = strOfJId tv → "A" = strOfJId sv →
       edgeIsNew (some demoBaseline) "B" "A" = false) :=
  claim_C3 demoBaseline "B" "A"

/-- Claim C10: ids and endpoints are compared as strings, so a target node
with numeric id 1 is pre-existing when the baseline holds a node with
string id "1", and a target edge with numeric endpoints 1 and 2 matches a
baseline edge with string endpoints "1" and "2". -/
theorem claim_C10 (b : GraphData)
    (hn : ∃ r ∈ b.nodes, getField r "id" = some (JId.jstr "1"))
    (he : ∃ r ∈ b.edges, getField r "source" = some (JId.jstr "1") ∧
            getField r "target" = some (JId.jstr "2")) :
    nodeIsNew (some b) (strOfJId (JId.jnum 1)) = false ∧
    edgeIsNew (some b) (strOfJId (JId.jnum 1)) (strOfJId (JId.jnum 2)) = false := by
  obtain ⟨rn, hrn, hid⟩ := hn
  obtain ⟨re, hre, hsrc, htgt⟩ := he
  constructor
  · have hmem : ("1" : String) ∈ baselineNodeIds b :=
      List.mem_filterMap.mpr ⟨rn, hrn, by rw [hid]; rfl⟩
    have hc : (baselineNodeIds b).contains ("1" : String) = true :=
      (list_contains_iff _ _).mpr hmem
    unfold nodeIsNew baselineNodeIdSet
    rw [show strOfJId (JId.jnum 1) = "1" from rfl, hc]
    rfl
  · have hmem : sortedPair "1" "2" ∈ baselineEdgePairs b :=
      List.mem_filterMap.mpr ⟨re, hre, by rw [hsrc, htgt]; rfl⟩
    have hc : (baselineEdgePairs b).contains (sortedPair "1" "2") = true :=
      (list_contains_iff _ _).mpr hmem
    unfold edgeIsNew baselineEdgePairSet
    rw [show strOfJId (JId.jnum 1) = "1" from rfl,
        show strOfJId (JId.jnum 2) = "2" from rfl, hc]
    rfl

/-- A baseline whose node has string id "1" and whose edge has string
endpoints ("1", "2"). -/
def numStrBaseline : GraphData :=
  ⟨[JRec.dict [("id", JId.jstr "1")]],
   [JRec.dict [("source", JId.jstr "1"), ("target", JId.jstr "2")]]⟩

/-- Witness for claim C10 at a concrete baseline with string ids "1", "2". -/
theorem claim_C10_witness :
    ((∃ r ∈ numStrBaseline.nodes, getField r "id" = some (JId.jstr "1")) ∧
     (∃ r ∈ numStrBaseline.edges, getField r "source" = some (JId.jstr "1") ∧
        getField r "target" = some (JId.jstr "2"))) ∧
    (nodeIsNew (some numStrBaseline) (strOfJId (JId.jnum 1)) = false ∧
     edgeIsNew (some numStrBaseline) (strOfJId (JId.jnum 1)) (strOfJId (JId.jnum 2)) = false) :=
  ⟨⟨⟨JRec.dict [("id", JId.jstr "1")], by simp [numStrBaseline], rfl⟩,
    ⟨JRec.dict [("source", JId.jstr "1"), ("target", JId.jstr "2")],
     by simp [numStrBaseline], rfl, rfl⟩⟩,
   claim_C10 numStrBaseline
     ⟨JRec.dict [("id", JId.jstr "1")], by simp [numStrBaseline], rfl⟩
     ⟨JRec.dict [("source", JId.jstr "1"), ("target", JId.jstr "2")],
      by simp [numStrBaseline], rfl, rfl⟩⟩

/-- A graph whose only node record is invalid (not a mapping). -/
def badNodeGraph : GraphData := ⟨[JRec.notDict], []⟩

/-- Counterexample to claim C9 as stated: for the input graph whose only
node record is invalid, the invalid record is skipped but the whole render
is then aborted at the `if not nodes_viz` early return (lines 213-216 of
app.py) instead of proceeding, so "the graph render is not aborted" fails
on this input. -/
theorem claim_C9_counterexample :
    display_demoviz_graph (some badNodeGraph) none = RenderOutcome.noValidNodes := rfl

/-- A valid node record always yields a rendered node. -/
lemma buildNode_isSome (bl : Option GraphData) (r : JRec) (v : JId)
    (h : getField r "id" = some v) : ∃ vn, buildNode bl r = some vn := by
  unfold buildNode
  rw [h]
  dsimp only
  split
  · exact ⟨_, rfl⟩
  · split
    · exact ⟨_, rfl⟩
    · split
      · exact ⟨_, rfl⟩
      · split
        · exact ⟨_, rfl⟩
        · split
          · exact ⟨_, rfl⟩
          · split
            · exact ⟨_, rfl⟩
            · exact ⟨_, rfl⟩

/-- Claim C9 as amended: an invalid node or edge record is skipped
individually, contributing nothing to the rendered node/edge lists while
all remaining valid records are still processed, and the render proceeds
provided at least one valid node record remains; when no valid node
remains, the render is skipped with a warning instead. -/
theorem claim_C9_amended (bl : Option GraphData) (ns1 ns2 es1 es2 : List JRec)
    (rn re : JRec)
    (hrn : getField rn "id" = none)
    (hre : getField re "source" = none ∨ getField re "target" = none) :
    buildNodesViz bl (ns1 ++ rn :: ns2) = buildNodesViz bl (ns1 ++ ns2) ∧
    buildEdgesViz bl (es1 ++ re :: es2) = buildEdgesViz bl (es1 ++ es2) ∧
    (∀ g : GraphData, (∃ nr ∈ g.nodes, (getField nr "id").isSome) →
       display_demoviz_graph (some g) bl
         = RenderOutcome.rendered (buildNodesViz bl g.nodes) (buildEdgesViz bl g.edges)) := by
  have hbn : buildNode bl rn = none := by
    unfold buildNode
    rw [hrn]
  have hbe : buildEdge bl re = none := by
    rcases hs : getField re "source" with _ | sv
    · unfold buildEdge
      rw [hs]
    · rcases ht : getField re "target" with _ | tv
      · unfold buildEdge
        rw [hs, ht]
      · exfalso
        rcases hre with h | h
        · rw [hs] at h
          cases h
        · rw [ht] at h
          cases h
  refine ⟨?_, ?_, ?_⟩
  · unfold buildNodesViz
    rw [List.filterMap_append, List.filterMap_append, List.filterMap_cons, hbn]
  · unfold buildEdgesViz
    rw [List.filterMap_append, List.filterMap_append, List.filterMap_cons, hbe]
  · rintro g ⟨nr, hmem, hid⟩
    obtain ⟨v, hv⟩ := Option.isSome_iff_exists.mp hid
    obtain ⟨vn, hvn⟩ := buildNode_isSome bl nr v hv
    have hne : buildNodesViz bl g.nodes ≠ [] :=
      List.ne_nil_of_mem (List.mem_filterMap.mpr ⟨nr, hmem, hvn⟩)
    have hem : (buildNodesViz bl g.nodes).isEmpty = false := by
      cases hl : buildNodesViz bl g.nodes
      · exact absurd hl hne
      · rfl
    simp [display_demoviz_graph, hem]

/-- Witness for the amended claim C9: an invalid node record and an invalid
edge record inserted next to the valid node A change nothing, and any graph
with a valid node renders. -/
theorem claim_C9_witness :
    (getField JRec.notDict "id" = none ∧
     (getField (JRec.dict []) "source" = none ∨
      getField (JRec.dict []) "target" = none)) ∧
    (buildNodesViz none ([nodeA] ++ JRec.notDict :: []) = buildNodesViz none ([nodeA] ++ []) ∧
     buildEdgesViz none ([] ++ JRec.dict [] :: []) = buildEdgesViz none ([] ++ []) ∧
     (∀ g : GraphData, (∃ nr ∈ g.nodes, (getField nr "id").isSome) →
        display_demoviz_graph (some g) none
          = RenderOutcome.rendered (buildNodesViz none g.nodes) (buildEdgesViz none g.edges))) :=
  ⟨⟨rfl, Or.inl rfl⟩,
   claim_C9_amended none [nodeA] [] [] [] JRec.notDict (JRec.dict []) rfl (Or.inl rfl)⟩

/-- Lines 257-263 of app.py. -/
def connectivity_options : List (String × ℕ) :=
  [("Very low: Only a few communicate.", 1),
   ("Low: Some members communicate, but not regularly.", 2),
   ("Medium: Regular communication occurs between most members.", 3),
   ("High: Most members communicate frequently.", 4),
   ("Very high: All members communicate consistently.", 5)]

/-- Lines 271-277 of app.py. -/
def information_flow_options : List (String × ℕ) :=
  [("Very low: Information flow is very limited.", 1),
   ("Low: Information flow occurs occasionally and is only partially accessible.", 2),
   ("Medium: Information flow is consistent, but some gaps exist.", 3),
   ("High: Information flow is good, and most members can access information.", 4),
   ("Very high: Information flow is seamless, and everyone receives consistent access.", 5)]

/-- Lines 285-291 of app.py. -/
def spontaneous_communication_options : List (String × ℕ) :=
  [("Almost none occurs: organization members communicate only within formal activities.", 1),
   ("Occurs minimally: Limited spontaneous communication occurs in exceptional cases.", 2),
   ("Occurs moderately: Some members communicate spontaneously, but not consistently.", 3),
   ("Occurs extensively: Most communicate naturally, but formal initiatives are needed sometimes.", 4),
   ("Occurs naturally and consistently: Spontaneous communication is integral to daily activity.", 5)]

/-- Lines 300-306 of app.py. -/
def workgroup_organization_options : List (String × ℕ) :=
  [("Very low: Teamwork is almost nonexistent.", 1),
   ("Low: Teamwork exists, but lacks organization.", 2),
   ("Medium: Teamwork exists, but not very organized.", 3),
   ("High: Teamwork is well-organized, but integration can be improved.", 4),
   ("Very high: Teamwork is strong and very organized.", 5)]

/-- Lines 314-320 of app.py. -/
def group_transparency_options : List (String × ℕ) :=
  [("Very low: Minimal transparency and limited sharing.", 1),
   ("Low: Transparency exists, but not consistently.", 2),
   ("Medium: Good transparency, but there is room for improvement.", 3),
   ("High: Most activities and updates are transparent and well-shared.", 4),
   ("Very high: Full transparency and constant information sharing.", 5)]

/-- Lines 328-334 of app.py. -/
def knowledge_sharing_options : List (String × ℕ) :=
  [("Very low: Knowledge sharing is actively discouraged or impossible.", 1),
   ("Low: Knowledge sharing is rare and occurs only if strictly necessary.", 2),
   ("Medium: Knowledge sharing occurs when prompted or facilitated.", 3),
   ("High: Knowledge sharing is common and valued within workgroups.", 4),
   ("Very high: Knowledge sharing is a deeply ingrained habit, happening proactively.", 5)]

/-- Lines 343-349 of app.py. -/
def central_connectors_options : List (String × ℕ) :=
  [("Very few: Almost no individuals act as central connectors.", 1),
   ("Few: Some individuals occasionally bridge different parts of the network.", 2),
   ("Moderate number: Several individuals are recognized for connecting disparate groups.", 3),
   ("Many: Numerous individuals actively bridge and connect different network segments.", 4),
   ("Very many: Network connectivity heavily relies on a wide array of central connectors.", 5)]

/-- Lines 357-363 of app.py. -/
def information_brokerage_options : List (String × ℕ) :=
  [("Very ineffective: Brokers are rare, and information flow between groups is poor.", 1),
   ("Ineffective: Some brokerage occurs, but it is slow and often misses key information.", 2),
   ("Moderately effective: Brokers facilitate decent information flow, but with delays or gaps.", 3),
   ("Effective: Brokers ensure timely and relevant information reaches different groups.", 4),
   ("Very effective: Brokerage is a strong asset, ensuring rapid and comprehensive information exchange.", 5)]

/-- Lines 371-377 of app.py. -/
def decision_making_influence_options : List (String × ℕ) :=
  [("Very little: Decisions are made in isolation with minimal input from connectors.", 1),
   ("Little: Connectors have some input, but their influence on decisions is limited.", 2),
   ("Moderate: Connectors are consulted, and their input moderately influences decisions.", 3),
   ("Significant: Connectors play a key role in shaping and influencing decisions.", 4),
   ("Very significant: Connectors are integral to the decision-making process; their insights are crucial.", 5)]

/-- Lines 398-410 of app.py, one dimension: look the three selected labels
up in their options tables and take the arithmetic mean of the three
values; `none` when a lookup fails (Python KeyError). -/
def dimensionScore (tbl1 tbl2 tbl3 : List (String × ℕ)) (l1 l2 l3 : String) : Option ℚ :=
  match List.lookup l1 tbl1, List.lookup l2 tbl2, List.lookup l3 tbl3 with
  | some a, some b, some c => some (((a : ℚ) + b + c) / 3)
  | _, _, _ => none

/-- Line 408 of app.py: `final_connectivity_score`. -/
def final_connectivity_score (l1 l2 l3 : String) : Option ℚ :=
  dimensionScore connectivity_options information_flow_options
    spontaneous_communication_options l1 l2 l3

/-- Line 409 of app.py: `final_clustering_score`. -/
def final_clustering_score (l1 l2 l3 : String) : Option ℚ :=
  dimensionScore workgroup_organization_options group_transparency_options
    knowledge_sharing_options l1 l2 l3

/-- Line 410 of app.py: `final_centrality_score`. -/
def final_centrality_score (l1 l2 l3 : String) : Option ℚ :=
  dimensionScore central_connectors_options information_brokerage_options
    decision_making_influence_options l1 l2 l3

/-- The value set of every options table. -/
def answerValues : List ℕ := [1, 2, 3, 4, 5]

/-- A successful association-list lookup finds an actual entry. -/
lemma lookup_mem {α β : Type} [BEq α] [LawfulBEq α] :
    ∀ (l : List (α × β)) (k : α) (v : β), List.lookup k l = some v → (k, v) ∈ l := by
  intro l
  induction l with
  | nil =>
    intro k v h
    cases h
  | cons p ps ih =>
    intro k v h
    rcases p with ⟨k2, v2⟩
    simp only [List.lookup] at h
    cases hb : k == k2 <;> rw [hb] at h
    · exact List.mem_cons_of_mem _ (ih k v h)
    · injection h with h
      subst h
      have hk : k = k2 := eq_of_beq hb
      subst hk
      exact List.mem_cons_self _ _

/-- A successful dimension score is the mean of three table values lying in
the answer set, and lies in `[1, 5]`. -/
lemma dimensionScore_spec (tbl1 tbl2 tbl3 : List (String × ℕ))
    (h1 : ∀ p ∈ tbl1, p.2 ∈ answerValues)
    (h2 : ∀ p ∈ tbl2, p.2 ∈ answerValues)
    (h3 : ∀ p ∈ tbl3, p.2 ∈ answerValues)
    (l1 l2 l3 : String) (s : ℚ)
    (h : dimensionScore tbl1 tbl2 tbl3 l1 l2 l3 = some s) :
    (∃ a b c : ℕ, a ∈ answerValues ∧ b ∈ answerValues ∧ c ∈ answerValues ∧
       s = ((a : ℚ) + b + c) / 3) ∧ 1 ≤ s ∧ s ≤ 5 := by
  unfold dimensionScore at h
  rcases ha : List.lookup l1 tbl1 with _ | a <;> rw [ha] at h
  · cases h
  rcases hb : List.lookup l2 tbl2 with _ | b <;> rw [hb] at h
  · cases h
  rcases hc : List.lookup l3 tbl3 with _ | c <;> rw [hc] at h
  · cases h
  injection h with h
  have hma : a ∈ answerValues := h1 (l1, a) (lookup_mem tbl1 l1 a ha)
  have hmb : b ∈ answerValues := h2 (l2, b) (lookup_mem tbl2 l2 b hb)
  have hmc : c ∈ answerValues := h3 (l3, c) (lookup_mem tbl3 l3 c hc)
  refine ⟨⟨a, b, c, hma, hmb, hmc, h.symm⟩, ?_, ?_⟩
  · have hba : 1 ≤ a ∧ a ≤ 5 := by
      simp [answerValues] at hma
      rcases hma with rfl | rfl | rfl | rfl | rfl <;> omega
    have hbb : 1 ≤ b ∧ b ≤ 5 := by
      simp [answerValues] at hmb
      rcases hmb with rfl | rfl | rfl | rfl | rfl <;> omega
    have hbc : 1 ≤ c ∧ c ≤ 5 := by
      simp [answerValues] at hmc
      rcases hmc with rfl | rfl | rfl | rfl | rfl <;> omega
    have ca : (1 : ℚ) ≤ (a : ℚ) := by exact_mod_cast hba.1
    have cb : (1 : ℚ) ≤ (b : ℚ) := by exact_mod_cast hbb.1
    have cc : (1 : ℚ) ≤ (c : ℚ) := by exact_mod_cast hbc.1
    rw [← h]
    linarith
  · have hba : 1 ≤ a ∧ a ≤ 5 := by
      simp [answerValues] at hma
      rcases hma with rfl | rfl | rfl | rfl | rfl <;> omega
    have hbb : 1 ≤ b ∧ b ≤ 5 := by
      simp [answerValues] at hmb
      rcases hmb with rfl | rfl | rfl | rfl | rfl <;> omega
    have hbc : 1 ≤ c ∧ c ≤ 5 := by
      simp [answerValues] at hmc
      rcases hmc with rfl | rfl | rfl | rfl | rfl <;> omega
    have ca : (a : ℚ) ≤ 5 := by exact_mod_cast hba.2
    have cb : (b : ℚ) ≤ 5 := by exact_mod_cast hbb.2
    have cc : (c : ℚ) ≤ 5 := by exact_mod_cast hbc.2
    rw [← h]
    linarith

/-- Claim C7: every successfully computed dimension score (connectivity,
clustering or centrality) is the arithmetic mean of three answer values,
each an integer in {1,2,3,4,5}, and therefore lies in `[1, 5]`. -/
theorem claim_C7 (l1 l2 l3 : String) (s : ℚ)
    (h : final_connectivity_score l1 l2 l3 = some s ∨
         final_clustering_score l1 l2 l3 = some s ∨
         final_centrality_score l1 l2 l3 = some s) :
    (∃ a b c : ℕ, a ∈ answerValues ∧ b ∈ answerValues ∧ c ∈ answerValues ∧
       s = ((a : ℚ) + b + c) / 3) ∧ 1 ≤ s ∧ s ≤ 5 := by
  rcases h with h | h | h
  · exact dimensionScore_spec _ _ _ (by decide) (by decide) (by decide) l1 l2 l3 s h
  · exact dimensionScore_spec _ _ _ (by decide) (by decide) (by decide) l1 l2 l3 s h
  · exact dimensionScore_spec _ _ _ (by decide) (by decide) (by decide) l1 l2 l3 s h

/-- Witness for claim C7, covering the spec instances: answers (5,5,5) give
score 5, (1,1,1) give 1, (2,3,4) give 3, and the bound claim instantiated
at score 5. -/
theorem claim_C7_witness :
    (final_connectivity_score "Very high: All members communicate consistently."
       "Very high: Information flow is seamless, and everyone receives consistent access."
       "Occurs naturally and consistently: Spontaneous communication is integral to daily activity."
       = some 5 ∨
     final_clustering_score "Very high: All members communicate consistently."
       "Very high: Information flow is seamless, and everyone receives consistent access."
       "Occurs naturally and consistently: Spontaneous communication is integral to daily activity."
       = some 5 ∨
     final_centrality_score "Very high: All members communicate consistently."
       "Very high: Information flow is seamless, and everyone receives consistent access."
       "Occurs naturally and consistently: Spontaneous communication is integral to daily activity."
       = some 5) ∧
    ((∃ a b c : ℕ, a ∈ answerValues ∧ b ∈ answerValues ∧ c ∈ answerValues ∧
        (5 : ℚ) = ((a : ℚ) + b + c) / 3) ∧ 1 ≤ (5 : ℚ) ∧ (5 : ℚ) ≤ 5) ∧
    final_connectivity_score "Very low: Only a few communicate."
      "Very low: Information flow is very limited."
      "Almost none occurs: organization members communicate only within formal activities."
      = some 1 ∧
    final_connectivity_score "Low: Some members communicate, but not regularly."
      "Medium: Information flow is consistent, but some gaps exist."
      "Occurs extensively: Most communicate naturally, but formal initiatives are needed sometimes."
      = some 3 := by
  have h5 : final_connectivity_score "Very high: All members communicate consistently."
      "Very high: Information flow is seamless, and everyone receives consistent access."
      "Occurs naturally and consistently: Spontaneous communication is integral to daily activity."
      = some 5 := by
    have e1 : List.lookup "Very high: All members communicate consistently."
        connectivity_options = some 5 := rfl
    have e2 : List.lookup "Very high: Information flow is seamless, and everyone receives consistent access."
        information_flow_options = some 5 := rfl
    have e3 : List.lookup "Occurs naturally and consistently: Spontaneous communication is integral to daily activity."
        spontaneous_communication_options = some 5 := rfl
    unfold final_connectivity_score dimensionScore
    rw [e1, e2, e3]
    norm_num
  have h1 : final_connectivity_score "Very low: Only a few communicate."
      "Very low: Information flow is very limited."
      "Almost none occurs: organization members communicate only within formal activities."
      = some 1 := by
    have e1 : List.lookup "Very low: Only a few communicate."
        connectivity_options = some 1 := rfl
    have e2 : List.lookup "Very low: Information flow is very limited."
        information_flow_options = some 1 := rfl
    have e3 : List.lookup "Almost none occurs: organization members communicate only within formal activities."
        spontaneous_communication_options = some 1 := rfl
    unfold final_connectivity_score dimensionScore
    rw [e1, e2, e3]
    norm_num
  have h3 : final_connectivity_score "Low: Some members communicate, but not regularly."
      "Medium: Information flow is consistent, but some gaps exist."
      "Occurs extensively: Most communicate naturally, but formal initiatives are needed sometimes."
      = some 3 := by
    have e1 : List.lookup "Low: Some members communicate, but not regularly."
        connectivity_options = some 2 := rfl
    have e2 : List.lookup "Medium: Information flow is consistent, but some gaps exist."
        information_flow_options = some 3 := rfl
    have e3 : List.lookup "Occurs extensively: Most communicate naturally, but formal initiatives are needed sometimes."
        spontaneous_communication_options = some 4 := rfl
    unfold final_connectivity_score dimensionScore
    rw [e1, e2, e3]
    norm_num
  exact ⟨Or.inl h5,
    claim_C7 "Very high: All members communicate consistently."
      "Very high: Information flow is seamless, and everyone receives consistent access."
      "Occurs naturally and consistently: Spontaneous communication is integral to daily activity."
      5 (Or.inl h5), h1, h3⟩

/-- Lines 247-251 of app.py: the radio widget keys with their intended
default option indices (all 2). -/
def radio_button_keys_indices : List (String × ℕ) :=
  [("conn_freq_radio", 2), ("info_flow_radio", 2), ("spont_comm_radio", 2),
   ("work_org_radio", 2), ("group_trans_radio", 2), ("know_share_radio", 2),
   ("cent_conn_radio", 2), ("info_brok_radio", 2), ("dec_mak_radio", 2)]

/-- The Streamlit session state restricted to the radio keys: an absent key
is modelled by a missing entry; `(k, none)` models a key whose stored value
is Python `None`; `(k, some lbl)` a key holding a selected option label. -/
abbrev SessionState : Type := List (String × Option String)

/-- Lines 252-254 of app.py: for every radio key not yet in the session
state, store Python `None` under it. -/
def initRadioState (st : SessionState) : SessionState :=
  radio_button_keys_indices.foldl
    (fun acc kv =>
      if (List.lookup kv.1 acc).isSome then acc else acc ++ [(kv.1, none)])
    st

/-- The value a `st.radio(options, index, key)` call leaves in
`st.session_state[key]`: by Streamlit's documented widget semantics, a value
already stored under the widget's key takes precedence over the `index`
default (with an API warning); only when the key is absent does the option
at `index` become the preselected value. A stored Python `None` therefore
leaves the radio with no selection. -/
def radioValue (st : SessionState) (key : String) (options : List String)
    (index : ℕ) : Option String :=
  match List.lookup key st with
  | some v => v
  | none => options[index]?

/-- Python `options_table[selected]` (lines 398-406 of app.py): `none`
models the KeyError raised when the selected value (in particular Python
`None`) is not a key of the table. -/
def optionScore (tbl : List (String × ℕ)) (sel : Option String) : Option ℕ :=
  match sel with
  | none => none
  | some lbl => List.lookup lbl tbl

/-- Lines 385-416 of app.py: on submit, look each of the nine selected
labels up in its options table and build the three final scores; any
failing lookup is the KeyError branch, modelled as `none`. -/
def submitted_scores (st : SessionState) : Option (ℚ × ℚ × ℚ) := do
  let s_connectivity_frequency ← optionScore connectivity_options
      (radioValue st "conn_freq_radio" (connectivity_options.map Prod.fst) 2)
  let s_information_flow ← optionScore information_flow_options
      (radioValue st "info_flow_radio" (information_flow_options.map Prod.fst) 2)
  let s_spontaneous_communication ← optionScore spontaneous_communication_options
      (radioValue st "spont_comm_radio" (spontaneous_communication_options.map Prod.fst) 2)
  let s_workgroup_organization ← optionScore workgroup_organization_options
      (radioValue st "work_org_radio" (workgroup_organization_options.map Prod.fst) 2)
  let s_group_transparency ← optionScore group_transparency_options
      (radioValue st "group_trans_radio" (group_transparency_options.map Prod.fst) 2)
  let s_knowledge_sharing ← optionScore knowledge_sharing_options
      (radioValue st "know_share_radio" (knowledge_sharing_options.map Prod.fst) 2)
  let s_central_connectors ← optionScore central_connectors_options
      (radioValue st "cent_conn_radio" (central_connectors_options.map Prod.fst) 2)
  let s_information_brokerage ← optionScore information_brokerage_options
      (radioValue st "info_brok_radio" (information_brokerage_options.map Prod.fst) 2)
  let s_decision_making_influence ← optionScore decision_making_influence_options
      (radioValue st "dec_mak_radio" (decision_making_influence_options.map Prod.fst) 2)
  pure
    (((s_connectivity_frequency : ℚ) + s_information_flow + s_spontaneous_communication) / 3,
     ((s_workgroup_organization : ℚ) + s_group_transparency + s_knowledge_sharing) / 3,
     ((s_central_connectors : ℚ) + s_information_brokerage + s_decision_making_influence) / 3)

/-- Claim C8, evaluated at the failing input: a fresh session (no radio key
present) runs the initialization loop, which stores Python `None` under
every radio key; that stored value overrides the `index=2` default of every
`st.radio`, so the radios start with no selection, and a submit without
touching them makes the very first option-label-to-score lookup fail
(KeyError) — the lookup-failure branch is reachable, contradicting the
claim. -/
theorem claim_C8_eval : submitted_scores (initRadioState []) = none := rfl
